import Mathlib

/-!
Verification development for the AttendEase front-end attendance core:
shallow embedding of the attendance reconciliation, local-edit, save,
statistics, filtering and report-export logic, together with theorems
settling the specification claims about it.

Sources embedded (JavaScript/React):
  - Components/Teacher/Attendance/AttendanceContent.jsx
    (formatDateKey, dailyData, handleLocalUpdate, handleSaveAttendance)
  - Components/Teacher/Attendance/AttendanceTable.jsx (filteredStudents)
  - Components/Teacher/Attendance/DownloadAttendanceDialog.jsx (handleDownload)
  - the two teacher dashboard variants (stats useMemo blocks)

Conventions: JavaScript numbers used as integers become `Int`/`Nat`;
a JavaScript `Date` value is its epoch-milliseconds integer together with
the host timezone offset in minutes (the value `getTimezoneOffset()`
returns); nullable string fields that the code only tests for truthiness
are `String` with `""` for absent; the locale-dependent timestamp
pretty-printer `formatLastUpdated` is abstracted as a function parameter
because its output depends on the host locale, not on program logic.
-/

/-- Civil calendar date (year, month 1..12, day 1..31) from a day count
relative to the Unix epoch 1970-01-01, floor-division variant of the
standard civil-from-days algorithm.  This models how `Date.toISOString`
derives its UTC calendar date from the epoch-milliseconds value. -/
def civilFromDays (z0 : Int) : Int × Int × Int :=
  let z := z0 + 719468
  let era := Int.fdiv z 146097
  let doe := z - era * 146097
  let yoe := Int.fdiv (doe - Int.fdiv doe 1460 + Int.fdiv doe 36524 - Int.fdiv doe 146096) 365
  let y := yoe + era * 400
  let doy := doe - (365 * yoe + Int.fdiv yoe 4 - Int.fdiv yoe 100)
  let mp := Int.fdiv (5 * doy + 2) 153
  let d := doy - Int.fdiv (153 * mp + 2) 5 + 1
  let m := mp + (if mp < 10 then 3 else -9)
  (y + (if m ≤ 2 then 1 else 0), m, d)

/-- Day count relative to 1970-01-01 of a civil calendar date
(inverse of `civilFromDays` on valid dates). -/
def daysFromCivil (y m d : Int) : Int :=
  let yy := y - (if m ≤ 2 then 1 else 0)
  let era := Int.fdiv yy 400
  let yoe := yy - era * 400
  let doy := Int.fdiv (153 * (m + (if m > 2 then -3 else 9)) + 2) 5 + d - 1
  let doe := yoe * 365 + Int.fdiv yoe 4 - Int.fdiv yoe 100 + doy
  era * 146097 + doe - 719468

/-- Two-digit zero padding of a (nonnegative) integer, as in
`String(x).padStart(2, '0')`. -/
def pad2i (n : Int) : String :=
  if n.toNat < 10 then "0" ++ toString n.toNat else toString n.toNat

/-- Four-digit zero padding for the year field of an ISO date. -/
def pad4i (n : Int) : String :=
  let s := toString n.toNat
  if s.length ≥ 4 then s else String.mk (List.replicate (4 - s.length) '0') ++ s

/-- Date part of `Date.prototype.toISOString` (`.split('T')[0]`): the UTC
calendar day `YYYY-MM-DD` of an epoch-milliseconds value. -/
def isoDateOfEpochMs (ms : Int) : String :=
  let days := Int.fdiv ms 86400000
  let c := civilFromDays days
  pad4i c.1 ++ "-" ++ pad2i c.2.1 ++ "-" ++ pad2i c.2.2

/-- Embedding of `formatDateKey` (AttendanceContent.jsx): subtract the
timezone offset (in minutes, as returned by `getTimezoneOffset()`) from
the epoch time and take the date part of `toISOString`. -/
def formatDateKey (tz ms : Int) : String :=
  isoDateOfEpochMs (ms - tz * 60000)

/-- Epoch milliseconds of UTC midnight of a civil date. -/
def utcMidnightMs (y m d : Int) : Int := daysFromCivil y m d * 86400000

/-- Epoch milliseconds of the `Date` produced by `new Date(y, m-1, d)` on a
host whose timezone offset is `tz` minutes (= `getTimezoneOffset()`):
local midnight of that civil date. -/
def localMidnightMs (tz y m d : Int) : Int := utcMidnightMs y m d + tz * 60000

/-- JavaScript `String.prototype.toLowerCase` modelled character-wise. -/
def strToLower (s : String) : String := String.mk (s.data.map Char.toLower)

/-- Roster entry as mapped in AttendanceContent.jsx (`mappedStudents`):
`id` is the roll number (UI key), `internalId` the backend database id,
`class` the subject label the row belongs to. -/
structure Student where
  id : String
  internalId : Int
  name : String
  «class» : String
  course : String
  semester : Nat
deriving DecidableEq

/-- Raw attendance log record (`GET /attendance/teacherwise/` shape, also
produced by local edits).  `updated_at`/`created_at` are `""` when absent;
the code only ever tests them for truthiness. -/
structure LogEntry where
  date : String
  subject_name : String
  roll_number : String
  status : String
  student_name : String := ""
  updated_at : String := ""
  created_at : String := ""
deriving DecidableEq

/-- Row of the per-day reconciled view built by the `dailyData` memo:
roster fields plus the day's (lowercased) status, `none` when unmarked,
and the last-updated display string. -/
structure DailyRow where
  id : String
  internalId : Int
  name : String
  «class» : String
  course : String
  semester : Nat
  status : Option String
  lastUpdated : String
  attendance : Nat
  consecutiveAbsences : Nat
deriving DecidableEq

/-- Embedding of the `dailyData` useMemo (AttendanceContent.jsx): filter the
logs to the selected day's key, and for each roster entry look up the log
matching roll number and subject; status is the log's status lowercased
(`none` when no log), last-updated falls through
`updated_at`, `created_at`, the log's `date`, then `-`.  `fmt` abstracts
the locale-dependent `formatLastUpdated`. -/
def dailyData (fmt : String → String) (allStudents : List Student)
    (attendanceLogs : List LogEntry) (tz selectedDateMs : Int) : List DailyRow :=
  let todaysLogs := attendanceLogs.filter
    (fun log => log.date == formatDateKey tz selectedDateMs)
  allStudents.map (fun student =>
    let logEntry := todaysLogs.find?
      (fun log => log.roll_number == student.id && log.subject_name == student.«class»)
    let lastUpdatedText :=
      match logEntry with
      | none => "-"
      | some e =>
        if e.updated_at ≠ "" then fmt e.updated_at
        else if e.created_at ≠ "" then fmt e.created_at
        else if e.date ≠ "" then e.date
        else "-"
    { id := student.id, internalId := student.internalId, name := student.name,
      «class» := student.«class», course := student.course, semester := student.semester,
      status := logEntry.map (fun e => strToLower e.status),
      lastUpdated := lastUpdatedText,
      attendance := 75, consecutiveAbsences := 0 })

/-- JavaScript `s.charAt(0).toUpperCase() + s.slice(1)`. -/
def capitalizeFirst (s : String) : String :=
  match s.data with
  | [] => ""
  | c :: rest => String.mk (c.toUpper :: rest)

/-- Embedding of `handleLocalUpdate` (AttendanceContent.jsx): look up the
student in the roster (unknown ids leave the logs unchanged), drop any
existing entry for the (date key, roll number, subject) tuple, and append
a fresh entry with capitalized status and `now` as both timestamps. -/
def handleLocalUpdate (allStudents : List Student) (tz selectedDateMs : Int)
    (now : String) (studentId newStatus : String)
    (prevLogs : List LogEntry) : List LogEntry :=
  match allStudents.find? (fun s => s.id == studentId) with
  | none => prevLogs
  | some student =>
    let dateKey := formatDateKey tz selectedDateMs
    let cleanLogs := prevLogs.filter (fun log =>
      !(log.date == dateKey && log.roll_number == studentId
        && log.subject_name == student.«class»))
    cleanLogs ++ [{ date := dateKey, status := capitalizeFirst newStatus,
                    roll_number := student.id, student_name := student.name,
                    subject_name := student.«class»,
                    updated_at := now, created_at := now }]
/-- Prefix test on character lists (the `startsWith` semantics of
JavaScript strings). -/
def listStarts : List Char → List Char → Bool
  | [], _ => true
  | _ :: _, [] => false
  | a :: as, b :: bs => a == b && listStarts as bs

/-- Substring occurrence test on character lists (the `includes` semantics
of JavaScript strings: `"".includes("")` is true). -/
def listHasSub (sub : List Char) : List Char → Bool
  | [] => sub.isEmpty
  | l@(_ :: rest) => listStarts sub l || listHasSub sub rest

/-- JavaScript `s.includes(sub)`. -/
def strIncludes (s sub : String) : Bool := listHasSub sub.data s.data

/-- JavaScript `s.startsWith(pre)`. -/
def strStartsWith (s pre : String) : Bool := listStarts pre.data s.data

/-- First-occurrence deduplication worker with the set of already seen
elements, modelling insertion into a JavaScript `Set`. -/
def dedupFirstAux (seen : List String) : List String → List String
  | [] => []
  | a :: l => if a ∈ seen then dedupFirstAux seen l else a :: dedupFirstAux (a :: seen) l

/-- JavaScript `[...new Set(list)]`: the distinct elements in order of first
occurrence. -/
def dedupFirst (l : List String) : List String := dedupFirstAux [] l

/-- Value of `parseInt` on a decimal digit string. -/
def natOfDigits (cs : List Char) : Nat :=
  cs.foldl (fun acc c => acc * 10 + (c.toNat - '0'.toNat)) 0

/-- Two-digit zero padding of a natural number
(`String(x).padStart(2, '0')`). -/
def pad2n (n : Nat) : String := if n < 10 then "0" ++ toString n else toString n

/-- Filter state of the attendance table (AttendanceTable.jsx).  The
dropdowns use the string sentinel `"all"`; the semester dropdown holds a
number or `"all"`, modelled as `Option Nat` with `none` for `"all"`. -/
structure TableFilters where
  searchQuery : String
  classFilter : String
  courseFilter : String
  semesterFilter : Option Nat
  notMarkedOnly : Bool
deriving DecidableEq

/-- Search predicate of `filteredStudents`: case-insensitive substring match
against the name or the roll number. -/
def matchesSearch (searchQuery : String) (student : DailyRow) : Bool :=
  strIncludes (strToLower student.name) (strToLower searchQuery)
  || strIncludes (strToLower student.id) (strToLower searchQuery)

/-- Class predicate of `filteredStudents` (`"all"` sentinel). -/
def matchesClass (classFilter : String) (student : DailyRow) : Bool :=
  classFilter == "all" || student.«class» == classFilter

/-- Course predicate of `filteredStudents` (`"all"` sentinel). -/
def matchesCourse (courseFilter : String) (student : DailyRow) : Bool :=
  courseFilter == "all" || student.course == courseFilter

/-- Semester predicate of `filteredStudents` (`none` is the `"all"`
sentinel). -/
def matchesSemester (semesterFilter : Option Nat) (student : DailyRow) : Bool :=
  match semesterFilter with
  | none => true
  | some n => student.semester == n

/-- Not-marked predicate of `filteredStudents`: when the checkbox is on,
keep only rows whose status is `null`. -/
def matchesNotMarked (notMarkedOnly : Bool) (student : DailyRow) : Bool :=
  !notMarkedOnly || student.status == none

/-- Embedding of `filteredStudents` (AttendanceTable.jsx): one pass keeping
the rows satisfying the conjunction of the five predicates. -/
def filteredStudents (f : TableFilters) (students : List DailyRow) : List DailyRow :=
  students.filter (fun student =>
    matchesSearch f.searchQuery student && matchesClass f.classFilter student
    && matchesCourse f.courseFilter student && matchesSemester f.semesterFilter student
    && matchesNotMarked f.notMarkedOnly student)

/-- The five filter predicates of the attendance table, indexed for stating
order-independence of their sequential application. -/
def tablePred (f : TableFilters) : Fin 5 → DailyRow → Bool
  | ⟨0, _⟩ => matchesSearch f.searchQuery
  | ⟨1, _⟩ => matchesClass f.classFilter
  | ⟨2, _⟩ => matchesCourse f.courseFilter
  | ⟨3, _⟩ => matchesSemester f.semesterFilter
  | ⟨_ + 4, _⟩ => matchesNotMarked f.notMarkedOnly

/-- Roster entry as mapped in the teacher dashboards (`formattedStudents`):
`id` is the backend id, `attendanceRate` the rounded
`attendance_percentage` from the API, `subject` the subject label.
The source also stores the raw API record for the warning dialogs; it
plays no role in the statistics and is not modelled. -/
structure DashStudent where
  id : Int
  name : String
  subject : String
  course : String
  semester : Nat
  attendanceRate : Int
  consecutiveAbsences : Nat := 0
  trend : String := "neutral"
  rollNumber : String := ""
  email : String := ""
deriving DecidableEq

/-- Filter state of the teacher dashboards.  The dropdowns use the string
sentinel `"All"`; the semester filter holds a number or `"All"`, modelled
as `Option Nat` with `none` for `"All"`. -/
structure DashFilters where
  selectedSubject : String
  selectedCourse : String
  selectedSemester : Option Nat
  showLowAttendance : Bool
deriving DecidableEq

/-- The `stats` object computed by the dashboard useMemo blocks. -/
structure DashStats where
  totalStudents : Nat
  presentToday : Nat
  absentToday : Nat
  notMarked : Int
  avgAttendance : Int
deriving DecidableEq

/-- Sequential filter chain shared by both dashboard variants: subject,
course, semester, then the low-attendance toggle (rate strictly below
75). -/
def dashFilteredList (f : DashFilters) (studentsData : List DashStudent) : List DashStudent :=
  let l1 := if f.selectedSubject ≠ "All"
    then studentsData.filter (fun s => s.subject == f.selectedSubject) else studentsData
  let l2 := if f.selectedCourse ≠ "All"
    then l1.filter (fun s => s.course == f.selectedCourse) else l1
  let l3 := match f.selectedSemester with
    | none => l2
    | some sem => l2.filter (fun s => s.semester == sem)
  if f.showLowAttendance then l3.filter (fun s => decide (s.attendanceRate < 75)) else l3

/-- Today's logs as both dashboards compute them: filter to the target date
key, then to the selected subject when one is chosen. -/
def todaysLogsFor (f : DashFilters) (attendanceLogs : List LogEntry)
    (targetDate : String) : List LogEntry :=
  let t := attendanceLogs.filter (fun log => log.date == targetDate)
  if f.selectedSubject ≠ "All"
    then t.filter (fun log => log.subject_name == f.selectedSubject) else t

/-- JavaScript `Math.round (num / den)` on an exact integer ratio
(`den > 0`): floor of the ratio plus one half. -/
def roundDiv (num den : Int) : Int := Int.fdiv (2 * num + den) (2 * den)

/-- Embedding of the stats useMemo of the dashboard variant whose
`notMarked` denominator is the fully filtered list
(the `DashboardContent` in `part_011`).  `targetDate` abstracts the
locally formatted current day. -/
def dashboardStats11 (f : DashFilters) (studentsData : List DashStudent)
    (attendanceLogs : List LogEntry) (targetDate : String) : DashStats :=
  let filteredList := dashFilteredList f studentsData
  let totalStudents := filteredList.length
  let avgAttendance := if totalStudents > 0
    then roundDiv (filteredList.foldl (fun acc s => acc + s.attendanceRate) 0) totalStudents
    else 0
  let todaysLogs := todaysLogsFor f attendanceLogs targetDate
  let presentToday := (todaysLogs.filter (fun log => log.status == "Present")).length
  let explicitAbsent := (todaysLogs.filter (fun log => log.status == "Absent")).length
  let notMarked := max 0 ((totalStudents : Int) - ((presentToday : Int) + (explicitAbsent : Int)))
  ⟨totalStudents, presentToday, explicitAbsent, notMarked, avgAttendance⟩

/-- Embedding of the stats useMemo of the dashboard variant whose
`notMarked` denominator is `studentsExpectedToday`: the raw roster
restricted to the selected subject only, ignoring the course, semester and
low-attendance filters (the `DashboardContent` in `part_017`). -/
def dashboardStats17 (f : DashFilters) (studentsData : List DashStudent)
    (attendanceLogs : List LogEntry) (targetDate : String) : DashStats :=
  let filteredList := dashFilteredList f studentsData
  let totalStudents := filteredList.length
  let avgAttendance := if totalStudents > 0
    then roundDiv (filteredList.foldl (fun acc s => acc + s.attendanceRate) 0) totalStudents
    else 0
  let todaysLogs := todaysLogsFor f attendanceLogs targetDate
  let presentToday := (todaysLogs.filter (fun log => log.status == "Present")).length
  let explicitAbsent := (todaysLogs.filter (fun log => log.status == "Absent")).length
  let studentsExpectedToday := (studentsData.filter (fun s =>
    f.selectedSubject == "All" || s.subject == f.selectedSubject)).length
  let notMarked := max 0 ((studentsExpectedToday : Int) - ((presentToday : Int) + (explicitAbsent : Int)))
  ⟨totalStudents, presentToday, explicitAbsent, notMarked, avgAttendance⟩

/-- Subject mapping entry (`GET /teachers/me/teacher-subject-ids/`). -/
structure SubjectMapping where
  ts_id : Int
  subject_name : String
deriving DecidableEq

/-- Body of one `POST /attendance/mark/` request. -/
structure SavePayload where
  ts_id : Int
  attendance_date : String
  present : List Int
  absent : List Int
deriving DecidableEq

/-- Observable outcome of one `handleSaveAttendance` run: the write
requests issued in order, the success counter, the per-subject error
messages in order, and the info/success feedback messages.  The source
shows each feedback through the same snackbar state; collecting them in
lists models what is reported. -/
structure SaveResult where
  attempts : List SavePayload
  successCount : Nat
  errors : List String
  info : Option String
  successMsg : Option String
deriving DecidableEq

/-- One iteration of the per-subject save loop in `handleSaveAttendance`:
resolve the subject against the mapping (`continue` when unresolved),
partition the day's logs for it into present/absent internal-id lists
(dropping roll numbers missing from the roster — and falsy ids — as
`.filter(Boolean)` does), then issue the write; `netOk` is the network
oracle telling whether the POST succeeds. -/
def processSubject (netOk : SavePayload → Bool) (allStudents : List Student)
    (subjectsList : List SubjectMapping) (logsToSave : List LogEntry)
    (dateKey : String) (acc : SaveResult) (subjectName : String) : SaveResult :=
  match subjectsList.find? (fun s => s.subject_name == subjectName) with
  | none => acc
  | some subjectObj =>
    let subjectLogs := logsToSave.filter (fun l => l.subject_name == subjectName)
    let presentIds := ((subjectLogs.filter (fun l => l.status == "Present")).filterMap
        (fun l => (allStudents.find? (fun s => s.id == l.roll_number)).map
          (fun s => s.internalId))).filter (fun i => i != 0)
    let absentIds := ((subjectLogs.filter (fun l => l.status == "Absent")).filterMap
        (fun l => (allStudents.find? (fun s => s.id == l.roll_number)).map
          (fun s => s.internalId))).filter (fun i => i != 0)
    let payload : SavePayload := ⟨subjectObj.ts_id, dateKey, presentIds, absentIds⟩
    if netOk payload then
      { acc with attempts := acc.attempts ++ [payload],
                 successCount := acc.successCount + 1 }
    else
      { acc with attempts := acc.attempts ++ [payload],
                 errors := acc.errors ++ ["Error saving " ++ subjectName] }

/-- Embedding of `handleSaveAttendance` (AttendanceContent.jsx): filter the
logs to the selected date key, iterate over the distinct subjects of that
day in first-occurrence order, and attach the final success feedback. -/
def handleSaveAttendance (netOk : SavePayload → Bool) (allStudents : List Student)
    (subjectsList : List SubjectMapping) (attendanceLogs : List LogEntry)
    (tz selectedDateMs : Int) : SaveResult :=
  let dateKey := formatDateKey tz selectedDateMs
  let logsToSave := attendanceLogs.filter (fun log => log.date == dateKey)
  let distinctSubjects := dedupFirst (logsToSave.map (fun l => l.subject_name))
  if distinctSubjects.length = 0 then
    { attempts := [], successCount := 0, errors := [],
      info := some "No attendance data to save.", successMsg := none }
  else
    let acc := distinctSubjects.foldl
      (processSubject netOk allStudents subjectsList logsToSave dateKey)
      { attempts := [], successCount := 0, errors := [], info := none, successMsg := none }
    { acc with successMsg := if acc.successCount > 0
        then some ("Attendance saved for " ++ toString acc.successCount ++ " subjects!")
        else none }

/-- Write request one subject of a save would issue, `none` when the
subject does not resolve through the mapping. -/
def payloadFor (allStudents : List Student) (subjectsList : List SubjectMapping)
    (logsToSave : List LogEntry) (dateKey : String) (subjectName : String) :
    Option SavePayload :=
  (subjectsList.find? (fun s => s.subject_name == subjectName)).map (fun subjectObj =>
    let subjectLogs := logsToSave.filter (fun l => l.subject_name == subjectName)
    let presentIds := ((subjectLogs.filter (fun l => l.status == "Present")).filterMap
        (fun l => (allStudents.find? (fun s => s.id == l.roll_number)).map
          (fun s => s.internalId))).filter (fun i => i != 0)
    let absentIds := ((subjectLogs.filter (fun l => l.status == "Absent")).filterMap
        (fun l => (allStudents.find? (fun s => s.id == l.roll_number)).map
          (fun s => s.internalId))).filter (fun i => i != 0)
    ⟨subjectObj.ts_id, dateKey, presentIds, absentIds⟩)

/-- Write requests a save over the given subject list issues, in order:
one per subject that resolves through the mapping, independent of the
network outcomes. -/
def attemptedPayloads (allStudents : List Student) (subjectsList : List SubjectMapping)
    (logsToSave : List LogEntry) (dateKey : String) (subjects : List String) :
    List SavePayload :=
  subjects.filterMap (payloadFor allStudents subjectsList logsToSave dateKey)

/-- Error messages a save over the given subject list reports, in order:
one per resolvable subject whose write fails. -/
def errorsFor (netOk : SavePayload → Bool) (allStudents : List Student)
    (subjectsList : List SubjectMapping) (logsToSave : List LogEntry)
    (dateKey : String) (subjects : List String) : List String :=
  subjects.filterMap (fun n =>
    match payloadFor allStudents subjectsList logsToSave dateKey n with
    | none => none
    | some p => if netOk p then none else some ("Error saving " ++ n))

/-- Days in a (1-based) month, the value of
`new Date(year, month, 0).getDate()`. -/
def getDaysInMonth (year month : Nat) : Nat :=
  if month = 2 then
    (if year % 4 = 0 ∧ (year % 100 ≠ 0 ∨ year % 400 = 0) then 29 else 28)
  else if month = 4 ∨ month = 6 ∨ month = 9 ∨ month = 11 then 30 else 31

/-- The template-literal date string of `handleDownload`:
`` `${year}-${String(month).padStart(2,'0')}-${String(day).padStart(2,'0')}` ``. -/
def dateStringOf (year month day : Nat) : String :=
  toString year ++ "-" ++ pad2n month ++ "-" ++ pad2n day

/-- Characters the regex `[^a-z0-9]/gi` does NOT match. -/
def isAlnumChar (c : Char) : Bool :=
  ('a' ≤ c && c ≤ 'z') || ('A' ≤ c && c ≤ 'Z') || ('0' ≤ c && c ≤ '9')

/-- The `safeSubject` computation of `handleDownload`:
`selectedSubject.replace(/[^a-z0-9]/gi, '_').toLowerCase()` — every
non-alphanumeric character is REPLACED by an underscore, then the whole
string is lowercased. -/
def safeSubjectName (s : String) : String :=
  strToLower (String.mk (s.data.map (fun c => if isAlnumChar c then c else '_')))

/-- Sanitizer that claim C9 describes instead: STRIP the non-alphanumeric
characters, then lowercase.  Kept for comparison with `safeSubjectName`. -/
def strippedSubjectName (s : String) : String :=
  strToLower (String.mk (s.data.filter isAlnumChar))

/-- File name claim C9 describes, built from the stripping sanitizer. -/
def fileNameClaimC9 (subject month : String) : String :=
  "Attendance_" ++ strippedSubjectName subject ++ "_" ++ month ++ ".xlsx"

/-- One row of the exported spreadsheet: the fixed column order is
Roll No, Name, day 1..N (in `days`), Total Classes, Days Present,
Percentage. -/
structure ExportRow where
  rollNo : String
  name : String
  days : List String
  totalClasses : Nat
  daysPresent : Nat
  percentage : String
deriving DecidableEq

/-- Day-cell computation of `handleDownload`: `P`/`A` from the student's
log for the date, else `-` when the date is a class-held date, else the
empty string. -/
def dayCell (monthLogs : List LogEntry) (uniqueClassDates : List String)
    (studentId dateString : String) : String :=
  match monthLogs.find? (fun l => l.date == dateString && l.roll_number == studentId) with
  | some log => if log.status == "Present" then "P" else "A"
  | none => if dateString ∈ uniqueClassDates then "-" else ""

/-- Day cell as claim C4 words it: the class-held test is the direct
existence of any log (for the already month-and-subject-filtered list) on
that date. -/
def cellSpecC4 (monthLogs : List LogEntry) (studentId dateString : String) : String :=
  match monthLogs.find? (fun l => l.date == dateString && l.roll_number == studentId) with
  | some log => if log.status == "Present" then "P" else "A"
  | none => if monthLogs.any (fun l => l.date == dateString) then "-" else ""

/-- One iteration of the day loop in `handleDownload`: extend the row with
the day's cell and bump the present counter on `P`. -/
def buildRowStep (monthLogs : List LogEntry) (uniqueClassDates : List String)
    (studentId : String) (year month : Nat) (acc : List String × Nat) (day : Nat) :
    List String × Nat :=
  let dateString := dateStringOf year month day
  let c := dayCell monthLogs uniqueClassDates studentId dateString
  (acc.1 ++ [c], if c == "P" then acc.2 + 1 else acc.2)

/-- JavaScript `((p / t) * 100).toFixed(2)` modelled on the exact ratio:
round the percentage to the nearest hundredth (ties away from zero) and
render with two decimals. -/
def jsToFixed2Ratio (p t : Nat) : String :=
  let scaled := (p * 10000 * 2 + t) / (2 * t)
  toString (scaled / 100) ++ "." ++ pad2n (scaled % 100)

/-- Row construction of `handleDownload` for one student: loop the days
1..daysInMonth accumulating cells and the present counter, then attach the
summary columns. -/
def buildExportRow (monthLogs : List LogEntry) (uniqueClassDates : List String)
    (totalClassesHeld year month daysInMonth : Nat) (student : Student) : ExportRow :=
  let r := (List.range' 1 daysInMonth).foldl
    (buildRowStep monthLogs uniqueClassDates student.id year month) ([], 0)
  { rollNo := student.id, name := student.name, days := r.1,
    totalClasses := totalClassesHeld, daysPresent := r.2,
    percentage := (if totalClassesHeld > 0
      then jsToFixed2Ratio r.2 totalClassesHeld else "0.00") ++ "%" }

/-- Embedding of `handleDownload` (DownloadAttendanceDialog.jsx): validate
the three selections, filter the roster to course, semester and subject,
filter the logs to the month and subject, build one row per student, and
return the rows with the output file name.  Spreadsheet serialization
(`XLSX.*`) is the out-of-scope binary encoding of exactly these rows. -/
def handleDownload (students : List Student) (logs : List LogEntry)
    (selectedMonth selectedSubject selectedCourse : String)
    (selectedSemester : Option Nat) : Except String (List ExportRow × String) :=
  if selectedSubject == "" || selectedCourse == "" || selectedSemester == none then
    .error "Please select Subject, Course, and Semester."
  else
    let targetStudents := students.filter (fun s =>
      s.course == selectedCourse && some s.semester == selectedSemester
        && s.«class» == selectedSubject)
    if targetStudents.length = 0 then
      .error "No students found matching this Subject, Course, and Semester."
    else
      let year := natOfDigits (selectedMonth.data.takeWhile (fun c => c ≠ '-'))
      let month := natOfDigits
        (((selectedMonth.data.dropWhile (fun c => c ≠ '-')).drop 1).takeWhile (fun c => c ≠ '-'))
      let daysInMonth := getDaysInMonth year month
      let monthLogs := logs.filter (fun log =>
        strStartsWith log.date selectedMonth && log.subject_name == selectedSubject)
      let uniqueClassDates := dedupFirst (monthLogs.map (fun l => l.date))
      let totalClassesHeld := uniqueClassDates.length
      let excelData := targetStudents.map
        (buildExportRow monthLogs uniqueClassDates totalClassesHeld year month daysInMonth)
      .ok (excelData,
        "Attendance_" ++ safeSubjectName selectedSubject ++ "_" ++ selectedMonth ++ ".xlsx")

/-! ## Theorems -/

lemma localUpdate_filter_tuple (allStudents : List Student) (tz ms : Int)
    (now roll newStatus : String) (st : Student) (logs : List LogEntry)
    (h : allStudents.find? (fun s => s.id == roll) = some st) :
    (handleLocalUpdate allStudents tz ms now roll newStatus logs).filter
      (fun log => log.date == formatDateKey tz ms && log.roll_number == roll
        && log.subject_name == st.«class») =
    [{ date := formatDateKey tz ms, status := capitalizeFirst newStatus,
       roll_number := st.id, student_name := st.name, subject_name := st.«class»,
       updated_at := now, created_at := now }] := by
  have hid : st.id = roll := by
    have := List.find?_some h
    simpa using this
  unfold handleLocalUpdate
  rw [h]
  simp only [List.filter_append]
  rw [show (fun (log : LogEntry) => log.date == formatDateKey tz ms
        && log.roll_number == roll && log.subject_name == st.«class»)
      = (fun log => (log.date == formatDateKey tz ms && log.roll_number == roll
        && log.subject_name == st.«class»)) from rfl]
  rw [List.filter_filter]
  have hnil : logs.filter (fun a =>
      (a.date == formatDateKey tz ms && a.roll_number == roll
        && a.subject_name == st.«class»)
      && !(a.date == formatDateKey tz ms && a.roll_number == roll
        && a.subject_name == st.«class»)) = [] := by
    rw [List.filter_eq_nil_iff]
    intro a _
    simp [Bool.and_not_self]
  rw [hnil]
  simp [hid]

/-- Claim C6: applying the local edit with status `present` twice for the same
(student, subject, date) leaves exactly one log entry for that
(date key, roll number, subject) tuple, namely the freshly written one whose
stored status is the canonical capitalized form `Present` (displayed
lowercase by the reconciler). -/
theorem localEdit_idempotent_present (allStudents : List Student) (tz ms : Int)
    (now1 now2 roll : String) (st : Student) (prevLogs : List LogEntry)
    (h : allStudents.find? (fun s => s.id == roll) = some st) :
    ((handleLocalUpdate allStudents tz ms now2 roll "present"
        (handleLocalUpdate allStudents tz ms now1 roll "present" prevLogs)).filter
      (fun log => log.date == formatDateKey tz ms && log.roll_number == roll
        && log.subject_name == st.«class»)) =
    [{ date := formatDateKey tz ms, status := "Present",
       roll_number := st.id, student_name := st.name, subject_name := st.«class»,
       updated_at := now2, created_at := now2 }] := by
  have := localUpdate_filter_tuple allStudents tz ms now2 roll "present" st
    (handleLocalUpdate allStudents tz ms now1 roll "present" prevLogs) h
  simpa [capitalizeFirst] using this

/-- Witness for C6 at a concrete roster, date and empty initial log list. -/
theorem localEdit_idempotent_present_witness :
    ((handleLocalUpdate [⟨"R1", 1, "Alice", "Math", "BSc", 3⟩] 0 0 "t2" "R1" "present"
        (handleLocalUpdate [⟨"R1", 1, "Alice", "Math", "BSc", 3⟩] 0 0 "t1" "R1" "present" [])).filter
      (fun log => log.date == formatDateKey 0 0 && log.roll_number == "R1"
        && log.subject_name == (⟨"R1", 1, "Alice", "Math", "BSc", 3⟩ : Student).«class»)) =
    [{ date := formatDateKey 0 0, status := "Present",
       roll_number := "R1", student_name := "Alice", subject_name := "Math",
       updated_at := "t2", created_at := "t2" }] :=
  localEdit_idempotent_present [⟨"R1", 1, "Alice", "Math", "BSc", 3⟩] 0 0 "t1" "t2" "R1"
    ⟨"R1", 1, "Alice", "Math", "BSc", 3⟩ [] (by decide)

/-- Claim C10: invoking the local edit with a student id that matches no
roster entry leaves the attendance log list exactly unchanged. -/
theorem localUpdate_unknown_student_noop (allStudents : List Student)
    (tz ms : Int) (now studentId newStatus : String) (prevLogs : List LogEntry)
    (h : ∀ s ∈ allStudents, s.id ≠ studentId) :
    handleLocalUpdate allStudents tz ms now studentId newStatus prevLogs = prevLogs := by
  have hfind : allStudents.find? (fun s => s.id == studentId) = none := by
    rw [List.find?_eq_none]
    intro s hs
    simpa using h s hs
  unfold handleLocalUpdate
  rw [hfind]

/-- Witness for C10: editing an id absent from a concrete roster is a no-op. -/
theorem localUpdate_unknown_student_noop_witness :
    handleLocalUpdate [⟨"R1", 1, "Alice", "Math", "BSc", 3⟩] 0 0 "t1" "R9" "present"
      [⟨"1970-01-01", "Math", "R1", "Present", "", "", ""⟩] =
    [⟨"1970-01-01", "Math", "R1", "Present", "", "", ""⟩] :=
  localUpdate_unknown_student_noop [⟨"R1", 1, "Alice", "Math", "BSc", 3⟩] 0 0 "t1" "R9" "present"
    [⟨"1970-01-01", "Math", "R1", "Present", "", "", ""⟩] (by decide)

/-- Claim C7: on a date with no matching log entries, reconciliation yields
status `none` (not marked) and last-updated display `-` for every row. -/
theorem reconcile_no_logs (fmt : String → String) (allStudents : List Student)
    (logs : List LogEntry) (tz ms : Int)
    (h : ∀ log ∈ logs, log.date ≠ formatDateKey tz ms) :
    ∀ row ∈ dailyData fmt allStudents logs tz ms,
      row.status = none ∧ row.lastUpdated = "-" := by
  intro row hrow
  have hfilter : logs.filter (fun log => log.date == formatDateKey tz ms) = [] := by
    rw [List.filter_eq_nil_iff]
    intro a ha
    simpa using h a ha
  simp only [dailyData, hfilter, List.find?_nil] at hrow
  obtain ⟨student, _, rfl⟩ := List.mem_map.mp hrow
  exact ⟨rfl, rfl⟩

/-- Witness for C7 at a concrete roster and a log list dated off-day. -/
theorem reconcile_no_logs_witness :
    ({ id := "R1", internalId := 1, name := "Alice", «class» := "Math",
       course := "BSc", semester := 3, status := none, lastUpdated := "-",
       attendance := 75, consecutiveAbsences := 0 } : DailyRow).status = none ∧
    ({ id := "R1", internalId := 1, name := "Alice", «class» := "Math",
       course := "BSc", semester := 3, status := none, lastUpdated := "-",
       attendance := 75, consecutiveAbsences := 0 } : DailyRow).lastUpdated = "-" :=
  reconcile_no_logs id [⟨"R1", 1, "Alice", "Math", "BSc", 3⟩]
    [⟨"2025-03-15", "Math", "R1", "Present", "", "", ""⟩] 0 0 (by decide)
    { id := "R1", internalId := 1, name := "Alice", «class» := "Math",
      course := "BSc", semester := 3, status := none, lastUpdated := "-",
      attendance := 75, consecutiveAbsences := 0 } (by decide)

/-- Claim C3: the date key used by reconciliation is the local calendar day:
for every timezone offset `tz` (minutes, as `getTimezoneOffset` returns it)
and every civil date, formatting the local-midnight `Date` yields the UTC
rendering of that same civil date; in particular a `Date` at local midnight
of March 15, 2025 formats as `2025-03-15` in every timezone, and a log dated
`2025-03-15` reconciles to status `present` there. -/
theorem dateKey_local_day (tz y m d : Int) (fmt : String → String) :
    formatDateKey tz (localMidnightMs tz y m d) = isoDateOfEpochMs (utcMidnightMs y m d)
    ∧ formatDateKey tz (localMidnightMs tz 2025 3 15) = "2025-03-15"
    ∧ (dailyData fmt [⟨"R1", 1, "Alice", "Physics", "BSc", 3⟩]
        [⟨"2025-03-15", "Physics", "R1", "Present", "", "", ""⟩]
        tz (localMidnightMs tz 2025 3 15)).map (fun r => r.status)
      = [some "present"] := by
  have hcancel : ∀ (y' m' d' : Int),
      formatDateKey tz (localMidnightMs tz y' m' d') = isoDateOfEpochMs (utcMidnightMs y' m' d') := by
    intro y' m' d'
    show isoDateOfEpochMs _ = isoDateOfEpochMs _
    exact congrArg isoDateOfEpochMs (by unfold localMidnightMs; ring)
  have h315 : formatDateKey tz (localMidnightMs tz 2025 3 15) = "2025-03-15" := by
    rw [hcancel]
    decide
  refine ⟨hcancel y m d, h315, ?_⟩
  simp only [dailyData, h315]
  rfl

lemma foldl_filter_eq_filter_all {α β : Type} (g : β → α → Bool) (idx : List β) (l : List α) :
    idx.foldl (fun acc i => acc.filter (g i)) l = l.filter (fun a => idx.all (fun i => g i a)) := by
  induction idx generalizing l with
  | nil => simp
  | cons i idx ih =>
    simp only [List.foldl_cons, List.all_cons]
    rw [ih, List.filter_filter]
    exact List.filter_congr (fun a _ => by rw [Bool.and_comm])

lemma listHasSub_nil (l : List Char) : listHasSub [] l = true := by
  cases l <;> rfl

lemma strIncludes_nil (s : String) : strIncludes s "" = true :=
  listHasSub_nil s.data

lemma matchesSearch_empty (a : DailyRow) : matchesSearch "" a = true := by
  unfold matchesSearch
  rw [show strToLower "" = "" from rfl, strIncludes_nil]
  rfl

/-- Claim C8: the attendance-table filters are independent conjunctive
predicates, so filtering is order-independent: sequentially applying the
five predicates in any permuted order equals the one-pass filter, and in
particular the one-pass `{courseFilter, semesterFilter}` selection equals
semester-then-course and course-then-semester two-pass filtering. -/
theorem filters_order_independent (f : TableFilters) (students : List DailyRow)
    (sigma : Equiv.Perm (Fin 5)) :
    (([0, 1, 2, 3, 4] : List (Fin 5)).map sigma).foldl
        (fun acc i => acc.filter (tablePred f i)) students = filteredStudents f students
    ∧ filteredStudents ⟨"", "all", f.courseFilter, f.semesterFilter, false⟩ students
        = (students.filter (matchesSemester f.semesterFilter)).filter
            (matchesCourse f.courseFilter)
    ∧ filteredStudents ⟨"", "all", f.courseFilter, f.semesterFilter, false⟩ students
        = (students.filter (matchesCourse f.courseFilter)).filter
            (matchesSemester f.semesterFilter) := by
  have hmem : ∀ i : Fin 5, i ∈ ([0, 1, 2, 3, 4] : List (Fin 5)) := by decide
  refine ⟨?_, ?_, ?_⟩
  · rw [List.foldl_map, foldl_filter_eq_filter_all (fun i => tablePred f (sigma i))]
    unfold filteredStudents
    refine List.filter_congr (fun a _ => ?_)
    have hperm : (([0, 1, 2, 3, 4] : List (Fin 5)).all (fun i => tablePred f (sigma i) a))
        = (([0, 1, 2, 3, 4] : List (Fin 5)).all (fun i => tablePred f i a)) := by
      rw [(by decide : ∀ x y : Bool, x = y ↔ ((x = true) ↔ (y = true))) _ _]
      simp only [List.all_eq_true]
      constructor
      · intro h j _
        have := h (sigma.symm j) (hmem (sigma.symm j))
        simpa using this
      · intro h i _
        exact h (sigma i) (hmem (sigma i))
    rw [hperm]
    simp only [List.all_cons, List.all_nil, Bool.and_true, Bool.and_assoc]
    rfl
  · unfold filteredStudents
    rw [List.filter_filter]
    refine List.filter_congr (fun a _ => ?_)
    show (matchesSearch "" a && matchesClass "all" a && matchesCourse f.courseFilter a
        && matchesSemester f.semesterFilter a && matchesNotMarked false a)
        = (matchesCourse f.courseFilter a && matchesSemester f.semesterFilter a)
    rw [matchesSearch_empty, show matchesClass "all" a = true from rfl,
        show matchesNotMarked false a = true from rfl]
    simp only [Bool.true_and, Bool.and_true]
  · unfold filteredStudents
    rw [List.filter_filter]
    refine List.filter_congr (fun a _ => ?_)
    show (matchesSearch "" a && matchesClass "all" a && matchesCourse f.courseFilter a
        && matchesSemester f.semesterFilter a && matchesNotMarked false a)
        = (matchesSemester f.semesterFilter a && matchesCourse f.courseFilter a)
    rw [matchesSearch_empty, show matchesClass "all" a = true from rfl,
        show matchesNotMarked false a = true from rfl]
    simp only [Bool.true_and, Bool.and_true]
    rw [Bool.and_comm]

/-- Counterexample to claim C1 as stated: in the dashboard variant that
computes `studentsExpectedToday` (part_017), with subject filter `All` and
course filter `CS` over a two-student roster split across courses and no
logs, `notMarked` is 2 while `max 0 (total − (present + absent))` over the
filtered roster is 1. -/
theorem notMarked_filtered_total_cex :
    (dashboardStats17 ⟨"All", "CS", none, false⟩
      [⟨1, "A", "Math", "CS", 3, 80, 0, "neutral", "", ""⟩,
       ⟨2, "B", "Math", "EE", 3, 80, 0, "neutral", "", ""⟩] [] "2025-06-02").notMarked
    ≠ max 0 (((dashboardStats17 ⟨"All", "CS", none, false⟩
      [⟨1, "A", "Math", "CS", 3, 80, 0, "neutral", "", ""⟩,
       ⟨2, "B", "Math", "EE", 3, 80, 0, "neutral", "", ""⟩] [] "2025-06-02").totalStudents : Int)
        - (((dashboardStats17 ⟨"All", "CS", none, false⟩
      [⟨1, "A", "Math", "CS", 3, 80, 0, "neutral", "", ""⟩,
       ⟨2, "B", "Math", "EE", 3, 80, 0, "neutral", "", ""⟩] [] "2025-06-02").presentToday : Int)
          + ((dashboardStats17 ⟨"All", "CS", none, false⟩
      [⟨1, "A", "Math", "CS", 3, 80, 0, "neutral", "", ""⟩,
       ⟨2, "B", "Math", "EE", 3, 80, 0, "neutral", "", ""⟩] [] "2025-06-02").absentToday : Int))) := by
  decide

/-- Claim C1 (amended): `notMarked` is always the clamp
`max 0 (denominator − (presentToday + absentToday))`, but the denominator
differs between the two dashboard variants: the part_011 variant uses the
size of the fully filtered roster, while the part_017 variant uses the
count of roster rows matching the selected subject only; the two agree
whenever only a subject filter (or none) is active. -/
theorem notMarked_formula (f : DashFilters) (studentsData : List DashStudent)
    (logs : List LogEntry) (targetDate : String) :
    (dashboardStats11 f studentsData logs targetDate).notMarked
      = max 0 (((dashboardStats11 f studentsData logs targetDate).totalStudents : Int)
          - (((dashboardStats11 f studentsData logs targetDate).presentToday : Int)
             + ((dashboardStats11 f studentsData logs targetDate).absentToday : Int)))
    ∧ (dashboardStats17 f studentsData logs targetDate).notMarked
      = max 0 (((studentsData.filter (fun s =>
            f.selectedSubject == "All" || s.subject == f.selectedSubject)).length : Int)
          - (((dashboardStats17 f studentsData logs targetDate).presentToday : Int)
             + ((dashboardStats17 f studentsData logs targetDate).absentToday : Int)))
    ∧ (0 : Int) ≤ (dashboardStats11 f studentsData logs targetDate).notMarked
    ∧ (0 : Int) ≤ (dashboardStats17 f studentsData logs targetDate).notMarked
    ∧ (f.selectedCourse = "All" → f.selectedSemester = none → f.showLowAttendance = false →
        (dashboardStats17 f studentsData logs targetDate).notMarked
          = max 0 (((dashboardStats17 f studentsData logs targetDate).totalStudents : Int)
              - (((dashboardStats17 f studentsData logs targetDate).presentToday : Int)
                 + ((dashboardStats17 f studentsData logs targetDate).absentToday : Int)))) := by
  refine ⟨rfl, rfl, le_max_left 0 _, le_max_left 0 _, ?_⟩
  intro hc hs hl
  have he : dashFilteredList f studentsData
      = studentsData.filter (fun s =>
          f.selectedSubject == "All" || s.subject == f.selectedSubject) := by
    unfold dashFilteredList
    rw [hc, hs, hl]
    simp only [ne_eq, not_true_eq_false, if_false, ite_false]
    by_cases hsub : f.selectedSubject = "All"
    · rw [hsub]
      simp only [ne_eq, not_true_eq_false, if_false, ite_false]
      exact (List.filter_true studentsData).symm ▸
        (List.filter_congr (fun a _ => by rfl)).symm
    · rw [if_pos hsub]
      refine List.filter_congr (fun a _ => ?_)
      have : (f.selectedSubject == "All") = false := by
        simpa using hsub
      rw [this, Bool.false_or]
  show max 0 (((studentsData.filter (fun s =>
      f.selectedSubject == "All" || s.subject == f.selectedSubject)).length : Int) - _)
    = max 0 (((dashFilteredList f studentsData).length : Int) - _)
  rw [he]
  rfl

/-- Witness for the agreement clause of C1 (amended) at a concrete
subject-only filter selection. -/
theorem notMarked_formula_witness :
    (dashboardStats17 ⟨"Math", "All", none, false⟩
      [⟨1, "A", "Math", "CS", 3, 80, 0, "neutral", "", ""⟩] [] "2025-06-02").notMarked
      = max 0 (((dashboardStats17 ⟨"Math", "All", none, false⟩
          [⟨1, "A", "Math", "CS", 3, 80, 0, "neutral", "", ""⟩] [] "2025-06-02").totalStudents : Int)
          - (((dashboardStats17 ⟨"Math", "All", none, false⟩
          [⟨1, "A", "Math", "CS", 3, 80, 0, "neutral", "", ""⟩] [] "2025-06-02").presentToday : Int)
             + ((dashboardStats17 ⟨"Math", "All", none, false⟩
          [⟨1, "A", "Math", "CS", 3, 80, 0, "neutral", "", ""⟩] [] "2025-06-02").absentToday : Int))) :=
  (notMarked_formula ⟨"Math", "All", none, false⟩
    [⟨1, "A", "Math", "CS", 3, 80, 0, "neutral", "", ""⟩] [] "2025-06-02").2.2.2.2 rfl rfl rfl

lemma processSubject_eq (netOk : SavePayload → Bool) (allStudents : List Student)
    (subjectsList : List SubjectMapping) (logsToSave : List LogEntry)
    (dateKey : String) (acc : SaveResult) (n : String) :
    processSubject netOk allStudents subjectsList logsToSave dateKey acc n
    = match payloadFor allStudents subjectsList logsToSave dateKey n with
      | none => acc
      | some p =>
        if netOk p then
          { acc with attempts := acc.attempts ++ [p], successCount := acc.successCount + 1 }
        else
          { acc with attempts := acc.attempts ++ [p],
                     errors := acc.errors ++ ["Error saving " ++ n] } := by
  unfold processSubject payloadFor
  cases subjectsList.find? (fun s => s.subject_name == n) with
  | none => rfl
  | some obj => rfl

lemma saveLoop_spec (netOk : SavePayload → Bool) (allStudents : List Student)
    (subjectsList : List SubjectMapping) (logsToSave : List LogEntry) (dateKey : String) :
    ∀ (subjects : List String) (acc : SaveResult),
      subjects.foldl (processSubject netOk allStudents subjectsList logsToSave dateKey) acc
      = { attempts := acc.attempts
            ++ attemptedPayloads allStudents subjectsList logsToSave dateKey subjects,
          successCount := acc.successCount
            + ((attemptedPayloads allStudents subjectsList logsToSave dateKey subjects).filter
                netOk).length,
          errors := acc.errors
            ++ errorsFor netOk allStudents subjectsList logsToSave dateKey subjects,
          info := acc.info, successMsg := acc.successMsg } := by
  intro subjects
  induction subjects with
  | nil => intro acc; simp [attemptedPayloads, errorsFor]
  | cons a l ih =>
    intro acc
    rw [List.foldl_cons, processSubject_eq]
    cases hp : payloadFor allStudents subjectsList logsToSave dateKey a with
    | none =>
      rw [ih]
      simp only [attemptedPayloads, errorsFor, List.filterMap_cons, hp]
    | some p =>
      cases hn : netOk p with
      | true =>
        simp only []
        rw [if_pos hn, ih]
        simp only [attemptedPayloads, errorsFor, List.filterMap_cons, hp, hn, if_true,
          List.filter_cons, List.length_cons, SaveResult.mk.injEq]
        repeat' apply And.intro
        all_goals first | rfl | omega | simp
      | false =>
        simp only []
        rw [if_neg (by simp [hn]), ih]
        simp only [attemptedPayloads, errorsFor, List.filterMap_cons, hp, hn,
          Bool.false_eq_true, if_false, List.filter_cons, SaveResult.mk.injEq]
        repeat' apply And.intro
        all_goals first | rfl | omega | simp

lemma errorsFor_length (netOk : SavePayload → Bool) (allStudents : List Student)
    (subjectsList : List SubjectMapping) (logsToSave : List LogEntry) (dateKey : String) :
    ∀ subjects : List String,
      (errorsFor netOk allStudents subjectsList logsToSave dateKey subjects).length
      = ((attemptedPayloads allStudents subjectsList logsToSave dateKey subjects).filter
          (fun p => !netOk p)).length := by
  intro subjects
  induction subjects with
  | nil => rfl
  | cons a l ih =>
    cases hp : payloadFor allStudents subjectsList logsToSave dateKey a with
    | none =>
      simp only [errorsFor, attemptedPayloads, List.filterMap_cons, hp] at ih ⊢
      exact ih
    | some p =>
      cases hn : netOk p with
      | true =>
        simp only [errorsFor, attemptedPayloads, List.filterMap_cons, hp, hn, if_true,
          List.filter_cons, Bool.not_true, Bool.false_eq_true, if_false] at ih ⊢
        exact ih
      | false =>
        simp only [errorsFor, attemptedPayloads, List.filterMap_cons, hp, hn,
          Bool.false_eq_true, if_false, List.filter_cons, Bool.not_false, if_true,
          List.length_cons] at ih ⊢
        omega

/-- Claim C5: a save is best-effort over the day's subjects: the set of
write requests issued does not depend on the network outcomes (a failure
for one subject never prevents the remaining attempts), the success
counter counts exactly the successful attempts, errors are collected one
per failed attempt, and the success message reports the count exactly when
it is positive. -/
theorem save_best_effort (netOk altOk : SavePayload → Bool) (allStudents : List Student)
    (subjectsList : List SubjectMapping) (attendanceLogs : List LogEntry) (tz ms : Int) :
    (handleSaveAttendance netOk allStudents subjectsList attendanceLogs tz ms).attempts
      = (handleSaveAttendance altOk allStudents subjectsList attendanceLogs tz ms).attempts
    ∧ (handleSaveAttendance netOk allStudents subjectsList attendanceLogs tz ms).attempts
      = attemptedPayloads allStudents subjectsList
          (attendanceLogs.filter (fun log => log.date == formatDateKey tz ms))
          (formatDateKey tz ms)
          (dedupFirst ((attendanceLogs.filter
            (fun log => log.date == formatDateKey tz ms)).map (fun l => l.subject_name)))
    ∧ (handleSaveAttendance netOk allStudents subjectsList attendanceLogs tz ms).successCount
      = (((handleSaveAttendance netOk allStudents subjectsList attendanceLogs tz ms).attempts).filter
          netOk).length
    ∧ (handleSaveAttendance netOk allStudents subjectsList attendanceLogs tz ms).errors
      = errorsFor netOk allStudents subjectsList
          (attendanceLogs.filter (fun log => log.date == formatDateKey tz ms))
          (formatDateKey tz ms)
          (dedupFirst ((attendanceLogs.filter
            (fun log => log.date == formatDateKey tz ms)).map (fun l => l.subject_name)))
    ∧ (handleSaveAttendance netOk allStudents subjectsList attendanceLogs tz ms).errors.length
      = (((handleSaveAttendance netOk allStudents subjectsList attendanceLogs tz ms).attempts).filter
          (fun p => !netOk p)).length
    ∧ (handleSaveAttendance netOk allStudents subjectsList attendanceLogs tz ms).successMsg
      = (if 0 < (handleSaveAttendance netOk allStudents subjectsList attendanceLogs tz ms).successCount
         then some ("Attendance saved for "
            ++ toString (handleSaveAttendance netOk allStudents subjectsList attendanceLogs tz ms).successCount
            ++ " subjects!")
         else none) := by
  by_cases h : (dedupFirst ((attendanceLogs.filter
      (fun log => log.date == formatDateKey tz ms)).map (fun l => l.subject_name))).length = 0
  · have hnil : dedupFirst ((attendanceLogs.filter
        (fun log => log.date == formatDateKey tz ms)).map (fun l => l.subject_name)) = [] :=
      List.eq_nil_of_length_eq_zero h
    unfold handleSaveAttendance
    rw [if_pos h, if_pos h, hnil]
    exact ⟨rfl, rfl, rfl, rfl, rfl, rfl⟩
  · unfold handleSaveAttendance
    rw [if_neg h, if_neg h, saveLoop_spec, saveLoop_spec]
    refine ⟨rfl, rfl, by simp, rfl, ?_, rfl⟩
    show (([] : List String) ++ _).length = _
    simp only [List.nil_append]
    exact errorsFor_length netOk allStudents subjectsList _ _ _

/-- Counterexample to claim C2 as stated: with a date whose logs span the
two subjects Math and Phys, where Phys does not resolve through the
subject mapping and the Math write succeeds, the save reports one success
but does NOT report one failure — the unresolvable subject is skipped
silently, so the error list is empty. -/
theorem save_unresolved_silent_cex :
    (handleSaveAttendance (fun _ => true)
      [⟨"R1", 1, "Alice", "Math", "BSc", 3⟩, ⟨"R2", 2, "Bob", "Phys", "BSc", 3⟩]
      [⟨10, "Math"⟩]
      [⟨"1970-01-01", "Math", "R1", "Present", "", "", ""⟩,
       ⟨"1970-01-01", "Phys", "R2", "Present", "", "", ""⟩] 0 0).successCount = 1
    ∧ (handleSaveAttendance (fun _ => true)
      [⟨"R1", 1, "Alice", "Math", "BSc", 3⟩, ⟨"R2", 2, "Bob", "Phys", "BSc", 3⟩]
      [⟨10, "Math"⟩]
      [⟨"1970-01-01", "Math", "R1", "Present", "", "", ""⟩,
       ⟨"1970-01-01", "Phys", "R2", "Present", "", "", ""⟩] 0 0).errors.length ≠ 1 := by
  decide

/-- Claim C2 (amended): for a save over a date whose logs span two subjects
where exactly one resolves through the subject mapping and its write
succeeds, the save completes (nothing is thrown), reports one success, and
reports zero failures: the unresolvable subject is skipped silently with
no write attempt and no error. -/
theorem save_unresolved_skipped (netOk : SavePayload → Bool) (allStudents : List Student)
    (subjectsList : List SubjectMapping) (attendanceLogs : List LogEntry) (tz ms : Int)
    (A B : String) (objA : SubjectMapping)
    (hd : dedupFirst ((attendanceLogs.filter
        (fun log => log.date == formatDateKey tz ms)).map (fun l => l.subject_name)) = [A, B])
    (hA : subjectsList.find? (fun s => s.subject_name == A) = some objA)
    (hB : subjectsList.find? (fun s => s.subject_name == B) = none)
    (hok : ∀ p ∈ attemptedPayloads allStudents subjectsList
        (attendanceLogs.filter (fun log => log.date == formatDateKey tz ms))
        (formatDateKey tz ms) [A, B], netOk p = true) :
    (handleSaveAttendance netOk allStudents subjectsList attendanceLogs tz ms).successCount = 1
    ∧ (handleSaveAttendance netOk allStudents subjectsList attendanceLogs tz ms).errors = []
    ∧ (handleSaveAttendance netOk allStudents subjectsList attendanceLogs tz ms).attempts.length = 1
    ∧ (handleSaveAttendance netOk allStudents subjectsList attendanceLogs tz ms).successMsg
        = some "Attendance saved for 1 subjects!" := by
  rcases hpA : payloadFor allStudents subjectsList
      (attendanceLogs.filter (fun log => log.date == formatDateKey tz ms))
      (formatDateKey tz ms) A with _ | pA
  · rw [payloadFor, hA] at hpA
    simp at hpA
  have hpB : payloadFor allStudents subjectsList
      (attendanceLogs.filter (fun log => log.date == formatDateKey tz ms))
      (formatDateKey tz ms) B = none := by
    rw [payloadFor, hB]
    rfl
  have hap : attemptedPayloads allStudents subjectsList
      (attendanceLogs.filter (fun log => log.date == formatDateKey tz ms))
      (formatDateKey tz ms) [A, B] = [pA] := by
    unfold attemptedPayloads
    simp only [List.filterMap_cons, hpA, hpB, List.filterMap_nil]
  have hnetA : netOk pA = true := hok pA (by rw [hap]; simp)
  have herr : errorsFor netOk allStudents subjectsList
      (attendanceLogs.filter (fun log => log.date == formatDateKey tz ms))
      (formatDateKey tz ms) [A, B] = [] := by
    unfold errorsFor
    simp only [List.filterMap_cons, hpA, hpB, hnetA, if_true, List.filterMap_nil]
  simp only [handleSaveAttendance, hd]
  rw [if_neg (by simp)]
  rw [saveLoop_spec]
  simp only [hap, herr, List.nil_append, List.filter_cons, hnetA, if_true,
    List.filter_nil, List.length_cons, List.length_nil, List.length_singleton]
  repeat' apply And.intro
  all_goals first | rfl | simp

/-- Witness for C2 (amended) at the concrete two-subject scenario. -/
theorem save_unresolved_skipped_witness :
    (handleSaveAttendance (fun _ => true)
      [⟨"R1", 1, "Alice", "Math", "BSc", 3⟩, ⟨"R2", 2, "Bob", "Phys", "BSc", 3⟩]
      [⟨10, "Math"⟩]
      [⟨"1970-01-01", "Math", "R1", "Present", "", "", ""⟩,
       ⟨"1970-01-01", "Phys", "R2", "Present", "", "", ""⟩] 0 0).successCount = 1
    ∧ (handleSaveAttendance (fun _ => true)
      [⟨"R1", 1, "Alice", "Math", "BSc", 3⟩, ⟨"R2", 2, "Bob", "Phys", "BSc", 3⟩]
      [⟨10, "Math"⟩]
      [⟨"1970-01-01", "Math", "R1", "Present", "", "", ""⟩,
       ⟨"1970-01-01", "Phys", "R2", "Present", "", "", ""⟩] 0 0).errors = []
    ∧ (handleSaveAttendance (fun _ => true)
      [⟨"R1", 1, "Alice", "Math", "BSc", 3⟩, ⟨"R2", 2, "Bob", "Phys", "BSc", 3⟩]
      [⟨10, "Math"⟩]
      [⟨"1970-01-01", "Math", "R1", "Present", "", "", ""⟩,
       ⟨"1970-01-01", "Phys", "R2", "Present", "", "", ""⟩] 0 0).attempts.length = 1
    ∧ (handleSaveAttendance (fun _ => true)
      [⟨"R1", 1, "Alice", "Math", "BSc", 3⟩, ⟨"R2", 2, "Bob", "Phys", "BSc", 3⟩]
      [⟨10, "Math"⟩]
      [⟨"1970-01-01", "Math", "R1", "Present", "", "", ""⟩,
       ⟨"1970-01-01", "Phys", "R2", "Present", "", "", ""⟩] 0 0).successMsg
        = some "Attendance saved for 1 subjects!" :=
  save_unresolved_skipped (fun _ => true)
    [⟨"R1", 1, "Alice", "Math", "BSc", 3⟩, ⟨"R2", 2, "Bob", "Phys", "BSc", 3⟩]
    [⟨10, "Math"⟩]
    [⟨"1970-01-01", "Math", "R1", "Present", "", "", ""⟩,
     ⟨"1970-01-01", "Phys", "R2", "Present", "", "", ""⟩] 0 0
    "Math" "Phys" ⟨10, "Math"⟩ (by decide) (by decide) (by decide) (by decide)

lemma mem_dedupFirstAux : ∀ (l seen : List String) (x : String),
    x ∈ dedupFirstAux seen l ↔ (x ∈ l ∧ x ∉ seen) := by
  intro l
  induction l with
  | nil => intro seen x; simp [dedupFirstAux]
  | cons a t ih =>
    intro seen x
    unfold dedupFirstAux
    by_cases ha : a ∈ seen
    · rw [if_pos ha, ih]
      simp only [List.mem_cons]
      constructor
      · tauto
      · rintro ⟨rfl | hx, hns⟩ <;> tauto
    · rw [if_neg ha]
      simp only [List.mem_cons, ih, List.mem_cons]
      by_cases hxa : x = a
      · subst hxa; tauto
      · simp [hxa]

lemma nodup_dedupFirstAux : ∀ (l seen : List String), (dedupFirstAux seen l).Nodup := by
  intro l
  induction l with
  | nil => intro seen; simp [dedupFirstAux]
  | cons a t ih =>
    intro seen
    unfold dedupFirstAux
    by_cases ha : a ∈ seen
    · rw [if_pos ha]; exact ih seen
    · rw [if_neg ha]
      refine List.nodup_cons.mpr ⟨?_, ih (a :: seen)⟩
      intro hmem
      rcases (mem_dedupFirstAux _ _ _).mp hmem with ⟨_, hns⟩
      exact hns (List.mem_cons_self a seen)

lemma mem_dedupFirst (l : List String) (x : String) : x ∈ dedupFirst l ↔ x ∈ l := by
  unfold dedupFirst
  rw [mem_dedupFirstAux]
  simp

lemma buildRow_foldl (monthLogs : List LogEntry) (ucd : List String)
    (studentId : String) (year month : Nat) :
    ∀ (days : List Nat) (cs : List String) (n : Nat),
      days.foldl (buildRowStep monthLogs ucd studentId year month) (cs, n)
      = (cs ++ days.map (fun day => dayCell monthLogs ucd studentId (dateStringOf year month day)),
         n + ((days.map (fun day =>
             dayCell monthLogs ucd studentId (dateStringOf year month day))).filter
             (fun c => c == "P")).length) := by
  intro days
  induction days with
  | nil => intro cs n; simp
  | cons d rest ih =>
    intro cs n
    rw [List.foldl_cons]
    rw [show buildRowStep monthLogs ucd studentId year month (cs, n) d
        = (cs ++ [dayCell monthLogs ucd studentId (dateStringOf year month d)],
           if dayCell monthLogs ucd studentId (dateStringOf year month d) == "P"
           then n + 1 else n)
      from rfl]
    cases hc : dayCell monthLogs ucd studentId (dateStringOf year month d) == "P" with
    | false =>
      rw [if_neg (by simp)]
      rw [ih]
      simp only [List.map_cons, List.filter_cons, hc, Bool.false_eq_true, if_false,
        Prod.mk.injEq]
      repeat' apply And.intro
      all_goals first | rfl | omega | simp
    | true =>
      rw [if_pos rfl]
      rw [ih]
      simp only [List.map_cons, List.filter_cons, hc, if_true, List.length_cons,
        Prod.mk.injEq]
      repeat' apply And.intro
      all_goals first | rfl | omega | simp

lemma dayCell_eq_cellSpec (monthLogs : List LogEntry) (studentId dateString : String) :
    dayCell monthLogs (dedupFirst (monthLogs.map (fun l => l.date))) studentId dateString
    = cellSpecC4 monthLogs studentId dateString := by
  unfold dayCell cellSpecC4
  cases monthLogs.find? (fun l => l.date == dateString && l.roll_number == studentId) with
  | some log => rfl
  | none =>
    have hmem : (dateString ∈ dedupFirst (monthLogs.map (fun l => l.date)))
        ↔ (monthLogs.any (fun l => l.date == dateString) = true) := by
      rw [mem_dedupFirst]
      simp [List.mem_map, List.any_eq_true]
    exact if_congr hmem rfl rfl

/-- Claim C4: in the monthly export, each day cell is `P`/`A` from the
student's log for the (date, subject), `-` when the date is class-held
without an entry for the student, `""` otherwise; `Days Present` counts
the `P` cells; `Total Classes` is the number of distinct class-held dates
(the date list is duplicate-free and carries exactly the logged dates);
`Percentage` is the two-decimal rendering of daysPresent/totalClasses×100
with `%`, `0.00%` when no class was held; and the §8 example evaluates to
day-2 `P`, day-3 `-`, all other cells empty, totals 2/1, `50.00%`. -/
theorem export_matrix (monthLogs : List LogEntry) (year month daysInMonth : Nat)
    (student : Student) :
    (buildExportRow monthLogs (dedupFirst (monthLogs.map (fun l => l.date)))
        (dedupFirst (monthLogs.map (fun l => l.date))).length year month daysInMonth
        student).days
      = (List.range' 1 daysInMonth).map
          (fun day => cellSpecC4 monthLogs student.id (dateStringOf year month day))
    ∧ (buildExportRow monthLogs (dedupFirst (monthLogs.map (fun l => l.date)))
        (dedupFirst (monthLogs.map (fun l => l.date))).length year month daysInMonth
        student).daysPresent
      = (((buildExportRow monthLogs (dedupFirst (monthLogs.map (fun l => l.date)))
          (dedupFirst (monthLogs.map (fun l => l.date))).length year month daysInMonth
          student).days).filter (fun c => c == "P")).length
    ∧ (buildExportRow monthLogs (dedupFirst (monthLogs.map (fun l => l.date)))
        (dedupFirst (monthLogs.map (fun l => l.date))).length year month daysInMonth
        student).totalClasses
      = (dedupFirst (monthLogs.map (fun l => l.date))).length
    ∧ (dedupFirst (monthLogs.map (fun l => l.date))).Nodup
    ∧ (∀ d : String, d ∈ dedupFirst (monthLogs.map (fun l => l.date))
        ↔ ∃ l ∈ monthLogs, l.date = d)
    ∧ (buildExportRow monthLogs (dedupFirst (monthLogs.map (fun l => l.date)))
        (dedupFirst (monthLogs.map (fun l => l.date))).length year month daysInMonth
        student).percentage
      = (if 0 < (dedupFirst (monthLogs.map (fun l => l.date))).length
         then jsToFixed2Ratio
            (buildExportRow monthLogs (dedupFirst (monthLogs.map (fun l => l.date)))
              (dedupFirst (monthLogs.map (fun l => l.date))).length year month daysInMonth
              student).daysPresent
            (dedupFirst (monthLogs.map (fun l => l.date))).length
         else "0.00") ++ "%"
    ∧ handleDownload
        [⟨"R1", 1, "Alice", "Physics", "BSc", 3⟩, ⟨"R2", 2, "Bob", "Physics", "BCom", 3⟩]
        [⟨"2025-06-02", "Physics", "R1", "Present", "", "", ""⟩,
         ⟨"2025-06-03", "Physics", "R2", "Absent", "", "", ""⟩]
        "2025-06" "Physics" "BSc" (some 3)
      = .ok ([{ rollNo := "R1", name := "Alice",
                days := "" :: "P" :: "-" :: List.replicate 27 "",
                totalClasses := 2, daysPresent := 1, percentage := "50.00%" }],
             "Attendance_physics_2025-06.xlsx") := by
  have hfold := buildRow_foldl monthLogs (dedupFirst (monthLogs.map (fun l => l.date)))
    student.id year month (List.range' 1 daysInMonth) [] 0
  refine ⟨?_, ?_, rfl, nodup_dedupFirstAux _ _, ?_, rfl, by rfl⟩
  · show ((List.range' 1 daysInMonth).foldl
      (buildRowStep monthLogs (dedupFirst (monthLogs.map (fun l => l.date)))
        student.id year month) ([], 0)).1 = _
    rw [hfold]
    simp only [List.nil_append]
    exact List.map_congr_left (fun day _ => dayCell_eq_cellSpec monthLogs student.id _)
  · show ((List.range' 1 daysInMonth).foldl
      (buildRowStep monthLogs (dedupFirst (monthLogs.map (fun l => l.date)))
        student.id year month) ([], 0)).2
      = (List.filter _ ((List.range' 1 daysInMonth).foldl
          (buildRowStep monthLogs (dedupFirst (monthLogs.map (fun l => l.date)))
            student.id year month) ([], 0)).1).length
    rw [hfold]
    simp
  · intro d
    rw [mem_dedupFirst]
    simp [List.mem_map]

/-- Counterexample to claim C9 as stated: the code REPLACES each
non-alphanumeric character of the subject with an underscore before
lowercasing; it does not STRIP them.  For subject `Physics Lab` the export
produces `Attendance_physics_lab_2025-06.xlsx`, not the
`Attendance_physicslab_2025-06.xlsx` the stripping rule would give. -/
theorem export_filename_strip_cex :
    handleDownload [⟨"R1", 1, "Alice", "Physics Lab", "BSc", 3⟩] []
        "2025-06" "Physics Lab" "BSc" (some 3)
      = .ok ([{ rollNo := "R1", name := "Alice", days := List.replicate 30 "",
                totalClasses := 0, daysPresent := 0, percentage := "0.00%" }],
             "Attendance_physics_lab_2025-06.xlsx")
    ∧ fileNameClaimC9 "Physics Lab" "2025-06" = "Attendance_physicslab_2025-06.xlsx"
    ∧ ("Attendance_physics_lab_2025-06.xlsx" : String)
        ≠ "Attendance_physicslab_2025-06.xlsx" :=
  ⟨by rfl, by rfl, by decide⟩

/-- Claim C9 (amended): every successful export names its file
`Attendance_<sanitized subject>_<YYYY-MM>.xlsx` where the sanitizer
replaces each non-alphanumeric character with an underscore and lowercases
(alphanumerics are lowercased, everything else becomes `_`). -/
theorem export_filename (students : List Student) (logs : List LogEntry)
    (month subject course : String) (sem : Option Nat)
    (rows : List ExportRow) (fn : String)
    (h : handleDownload students logs month subject course sem = .ok (rows, fn)) :
    fn = "Attendance_" ++ safeSubjectName subject ++ "_" ++ month ++ ".xlsx"
    ∧ (safeSubjectName subject).data
        = subject.data.map (fun c => if isAlnumChar c then c.toLower else '_') := by
  constructor
  · unfold handleDownload at h
    split at h
    · exact absurd h (by simp)
    · dsimp only at h
      split at h
      · exact absurd h (by simp)
      · simp only [Except.ok.injEq, Prod.mk.injEq] at h
        exact h.2.symm
  · show (strToLower (String.mk (subject.data.map
        (fun c => if isAlnumChar c then c else '_')))).data = _
    unfold strToLower
    show (subject.data.map (fun c => if isAlnumChar c then c else '_')).map Char.toLower = _
    rw [List.map_map]
    refine List.map_congr_left (fun c _ => ?_)
    by_cases hc : isAlnumChar c = true
    · simp [hc, Function.comp]
    · simp [hc, Function.comp]

/-- Witness for C9 (amended) at a concrete successful export. -/
theorem export_filename_witness :
    ("Attendance_physics_2025-06.xlsx" : String)
      = "Attendance_" ++ safeSubjectName "Physics" ++ "_" ++ "2025-06" ++ ".xlsx"
    ∧ (safeSubjectName "Physics").data
      = "Physics".data.map (fun c => if isAlnumChar c then c.toLower else '_') :=
  export_filename
    [⟨"R1", 1, "Alice", "Physics", "BSc", 3⟩, ⟨"R2", 2, "Bob", "Physics", "BCom", 3⟩]
    [⟨"2025-06-02", "Physics", "R1", "Present", "", "", ""⟩,
     ⟨"2025-06-03", "Physics", "R2", "Absent", "", "", ""⟩]
    "2025-06" "Physics" "BSc" (some 3)
    [{ rollNo := "R1", name := "Alice",
       days := "" :: "P" :: "-" :: List.replicate 27 "",
       totalClasses := 2, daysPresent := 1, percentage := "50.00%" }]
    "Attendance_physics_2025-06.xlsx" (by rfl)
